import Mathlib

/-!
Shallow embedding of the Reconciliation & Inventory-Consistency Engine of the
Senstosales backend (Python/SQLite), covering:

* `backend/services/status_service.py`   — status derivation;
* `backend/core/utils.py`                — financial-year derivation;
* `backend/core/number_utils.py`         — quantity coercion;
* `backend/services/validation_service.py` — duplicate / item validation;
* `backend/services/dc.py`               — DC create/update with the R-01 guard;
* `backend/services/invoice.py`          — one-DC-one-Invoice guard;
* `backend/services/deviation_service.py` — quantity-mismatch deviations;
* `backend/services/srv_ingestion_optimized.py` — SRV item ingestion;
* `backend/services/reconciliation_v2.py` — `sync_po`.

Modelling conventions.  Python floats are embedded as `ℚ`; every tolerance
comparison in the source uses the literal `0.001`, embedded as `1/1000`.
SQL `NULL`-able columns are `Option ℚ`; SQL `SUM` over a result set ignores
`NULL`s and yields `NULL` on an empty (or all-`NULL`) set, embedded by
`sqlSum`.  Dates stored as canonical `YYYY-MM-DD` strings and compared
byte-wise by SQLite are embedded as `Date` triples with the lexicographic
order `dateLe`, which agrees with the byte-wise comparison for canonically
padded four-digit-year strings.  Table rows keep the source column names;
columns never consulted by any modelled operation are omitted.
-/

/-- A calendar date `(year, month, day)`, standing for the canonical
`YYYY-MM-DD` string the backend stores in SQLite date columns. -/
structure Date where
  year : Nat
  month : Nat
  day : Nat
deriving DecidableEq, Repr

/-- Lexicographic comparison of dates: this is exactly how SQLite's byte-wise
string comparison orders canonically formatted `YYYY-MM-DD` strings. -/
def dateLe (a b : Date) : Bool :=
  decide (a.year < b.year ∨ (a.year = b.year ∧
    (a.month < b.month ∨ (a.month = b.month ∧ a.day ≤ b.day))))

/-- A date with in-range month and day fields (any `YYYY-MM-DD` string the
backend can have stored). -/
def validDate (d : Date) : Prop :=
  1 ≤ d.month ∧ d.month ≤ 12 ∧ 1 ≤ d.day ∧ d.day ≤ 31 ∧ 1 ≤ d.year

instance (d : Date) : Decidable (validDate d) := by
  unfold validDate; infer_instance

/-- SQL `SUM` over a list of nullable values: `NULL`s are ignored, and the
sum of an empty (or all-`NULL`) collection is `NULL`. -/
def sqlSum (l : List (Option ℚ)) : Option ℚ :=
  let vs := l.filterMap id
  if vs.isEmpty then none else some vs.sum

/-! ## `backend/services/status_service.py` -/

/-- `calculate_entity_status(total_ordered, total_dispatched, total_received)`
from `status_service.py`: coerces `None` to `0` (`float(x or 0)`), returns
`"Delivered"` when `a_ord > 0 and a_disp >= a_ord - 0.001`, else `"Pending"`.
`total_received` is accepted but never read. -/
def calculate_entity_status (total_ordered total_dispatched total_received : Option ℚ) : String :=
  let a_ord := total_ordered.getD 0
  let a_disp := total_dispatched.getD 0
  let _a_rcd := total_received
  if 0 < a_ord ∧ a_ord - 1/1000 ≤ a_disp then "Delivered" else "Pending"

/-! ## `backend/core/utils.py` — financial year -/

/-- The calendar year in which the April-start financial year of `d` begins:
`d.year` when `month >= 4`, else `d.year - 1` (from `get_financial_year`). -/
def fyStartYear (d : Date) : Nat :=
  if 4 ≤ d.month then d.year else d.year - 1

/-- `str(n)[2:]` for a natural number, as used by
`get_financial_year`'s `f"{year}-{str(year + 1)[2:]}"`. -/
def strDrop2 (n : Nat) : String :=
  String.mk ((toString n).toList.drop 2)

/-- The `"YYYY-YY"` financial-year label built by `get_financial_year`. -/
def fyLabel (d : Date) : String :=
  toString (fyStartYear d) ++ "-" ++ strDrop2 (fyStartYear d + 1)

/-- The numeric year obtained from `f"20{fy.split('-')[1]}"` in
`dc.py` / `validation_service.py`: the FY label's two trailing digits
(`str(startYear + 1)[2:]` for a four-digit `startYear + 1`) prefixed with
`"20"`.  For `startYear + 1` between 1000 and 9999 those trailing digits are
`(startYear + 1) % 100`. -/
def fyEndYear (d : Date) : Nat :=
  2000 + (fyStartYear d + 1) % 100

/-- Does date `x` fall inside the financial-year window the duplicate checks
derive from date `d`, i.e. between `f"{year_start}-04-01"` and
`f"{year_end}-03-31"` under SQLite string comparison? -/
def inFYWindow (d x : Date) : Bool :=
  dateLe ⟨fyStartYear d, 4, 1⟩ x && dateLe x ⟨fyEndYear d, 3, 31⟩

/-! ## `backend/core/number_utils.py` -/

/-- `to_qty` from `number_utils.py`: `None` stays `None`, a numeric value is
rounded to three decimal places (`round(val, 3)`).  Python's float
`round` ties to even; over `ℚ` we use the standard `round`, which can differ
only on exact `.0005` ties that no modelled claim exercises. -/
def to_qty (v : Option ℚ) : Option ℚ :=
  v.map fun q => ((round (q * 1000) : ℤ) : ℚ) / 1000

/-! ## `backend/core/utils.py` — date parsing in `get_financial_year` -/

/-- Day count of a month, with the Gregorian leap rule, as enforced by
`datetime.strptime` / `datetime.fromisoformat` when validating a date. -/
def daysInMonth (y m : Nat) : Nat :=
  if m = 2 then (if y % 4 = 0 ∧ (y % 100 ≠ 0 ∨ y % 400 = 0) then 29 else 28)
  else if m = 4 ∨ m = 6 ∨ m = 9 ∨ m = 11 then 30 else 31

/-- Split a character list on a separator character, mirroring Python's
`str.split(sep)` / `String.splitOn` for a one-character separator: `n`
separators yield `n + 1` (possibly empty) groups. -/
def splitChar (sep : Char) : List Char → List (List Char)
  | [] => [[]]
  | c :: cs =>
    let r := splitChar sep cs
    if c = sep then [] :: r
    else match r with
      | [] => [[c]]
      | g :: gs => (c :: g) :: gs

/-- The numeric value of a nonempty all-digit character group (the accepted
shape of a `%Y` / `%m` / `%d` field); anything else is `none`. -/
def digitsVal (l : List Char) : Option Nat :=
  if l ≠ [] ∧ l.all Char.isDigit then
    some (l.foldl (fun acc c => acc * 10 + (c.toNat - 48)) 0)
  else none

/-- `datetime.strptime(s, "%Y-%m-%d")`: CPython compiles this format to the
regular expression `(?P<Y>\d\d\d\d)-(1[0-2]|0[1-9]|[1-9])-(3[01]|[12]\d|0[1-9]|[1-9])`
matched against the whole string — an **exactly four digit** year and
one-or-two-digit month/day fields without a leading-zero-only form — after
which the `datetime` constructor enforces year ≥ 1 and the day-in-month
bound.  Any failure raises `ValueError`, embedded as `none`. -/
def parseYmd (s : String) : Option Date :=
  match splitChar '-' s.toList with
  | [ys, ms, ds] =>
    match digitsVal ys, digitsVal ms, digitsVal ds with
    | some y, some m, some d =>
      if ys.length = 4 ∧ ms.length ≤ 2 ∧ ds.length ≤ 2 ∧ 1 ≤ y ∧
          1 ≤ m ∧ m ≤ 12 ∧ 1 ≤ d ∧ d ≤ daysInMonth y m
      then some ⟨y, m, d⟩ else none
    | _, _, _ => none
  | _ => none

/-- `date_str.replace("Z", "+00:00")` at the character level. -/
def replaceZ : List Char → List Char
  | [] => []
  | c :: cs =>
    if c = 'Z' then '+' :: '0' :: '0' :: ':' :: '0' :: '0' :: replaceZ cs
    else c :: replaceZ cs

/-- The date-extraction step of `get_financial_year`: when the string
contains `"T"`, `datetime.fromisoformat` is applied to the
`"Z" → "+00:00"` rewritten string; otherwise `strptime("%Y-%m-%d")` runs.
`datetime.fromisoformat` is a Python-standard-library primitive whose
accepted grammar depends on the interpreter version (3.11 accepts many more
ISO 8601 shapes than 3.10 — for example the hour-only `"2024-05-01T10"` on
every version and the compact `"20240501T1030"` from 3.11 on), so it is
kept abstract here: the `fromisoformat` argument ranges over all
`String → Option Date` functions, with `none` standing for `ValueError`.
Everything proved about `get_financial_year` is proved for **every** such
parser and therefore holds for the runtime's actual one. -/
def parse_date_model (fromisoformat : String → Option Date) (s : String) :
    Option Date :=
  if s.toList.contains 'T' then fromisoformat (String.mk (replaceZ s.toList))
  else parseYmd s

/-- `get_financial_year(date_str)` from `utils.py`.  `now` is the ambient
`datetime.now()` used when `date_str` is `None`/empty or fails to parse;
`fromisoformat` is the (abstracted) standard-library ISO parser. -/
def get_financial_year (fromisoformat : String → Option Date) (now : Date)
    (date_str : Option String) : String :=
  match date_str with
  | some s =>
    match parse_date_model fromisoformat s with
    | some d => fyLabel d
    | none => fyLabel now
  | none => fyLabel now

/-! ## Data model: the SQLite tables touched by the claims -/

/-- Row of `purchase_orders` (status column only; other header metadata is
not consulted by any modelled operation). -/
structure PORow where
  po_number : String
  po_status : String
deriving DecidableEq, Repr

/-- Row of `purchase_order_items`. -/
structure POItemRow where
  id : String
  po_number : String
  po_item_no : Int
  ord_qty : Option ℚ
  dsp_qty : Option ℚ
  rcd_qty : Option ℚ
  rej_qty : Option ℚ
  pending_qty : Option ℚ
  status : String
deriving DecidableEq, Repr

/-- Row of `purchase_order_deliveries` (delivery lots; schedule columns
omitted, tracking columns kept). -/
structure LotRow where
  id : String
  po_item_id : String
  dsp_qty : Option ℚ
  rcd_qty : Option ℚ
  rej_qty : Option ℚ
deriving DecidableEq, Repr

/-- Row of `delivery_challans` (columns consulted by the modelled checks). -/
structure DCRow where
  dc_number : String
  dc_date : Date
  po_number : String
  gc_number : String
deriving DecidableEq, Repr

/-- Row of `delivery_challan_items`. -/
structure DCItemRow where
  id : String
  dc_number : String
  po_item_id : String
  lot_no : Int
  dsp_qty : Option ℚ
deriving DecidableEq, Repr

/-- Row of `srv_items` (quantity and key columns). -/
structure SRVItemRow where
  id : String
  srv_number : String
  po_number : String
  po_item_no : Int
  rcd_qty : Option ℚ
  rej_qty : Option ℚ
  accepted_qty : Option ℚ
  ord_qty : Option ℚ
deriving DecidableEq, Repr

/-- Row of `gst_invoices` (key columns). -/
structure InvoiceRow where
  invoice_number : String
  invoice_date : Date
  dc_number : String
deriving DecidableEq, Repr

/-- Row of `deviations` (the immutable audit record written by
`DeviationService.log_deviation`; `expected_value`/`actual_value` are stored
as `str(x)` in the source and kept as the underlying numbers here). -/
structure DeviationRow where
  deviation_type : String
  entity_type : String
  entity_id : String
  po_number : String
  field_name : String
  expected_value : Option ℚ
  actual_value : Option ℚ
deriving DecidableEq, Repr

/-- The database state: one list per modelled table. -/
structure DB where
  purchase_orders : List PORow
  purchase_order_items : List POItemRow
  purchase_order_deliveries : List LotRow
  delivery_challans : List DCRow
  delivery_challan_items : List DCItemRow
  srv_items : List SRVItemRow
  gst_invoices : List InvoiceRow
  deviations : List DeviationRow
deriving DecidableEq, Repr

/-- `COALESCE((SELECT SUM(dsp_qty) FROM delivery_challan_items WHERE
po_item_id = ?), 0)` — the dispatched total of a PO item. -/
def sumDspFor (dcis : List DCItemRow) (pid : String) : ℚ :=
  ((dcis.filter (fun c => c.po_item_id == pid)).filterMap (·.dsp_qty)).sum

/-! ## `backend/services/reconciliation_v2.py` — `ReconciliationServiceV2.sync_po` -/

/-- The per-row effect of `sync_po` on a `purchase_order_items` row of the
synced PO, in source statement order:

* step 2/3 — `status` is set from the quantities **fetched at entry**
  (`calculate_entity_status(ord_qty, dsp_qty, rcd_qty)`);
* step 3.1 — `rcd_qty`/`rej_qty` are set to `COALESCE(SUM(...), 0)` over the
  matching `srv_items` rows;
* step 3.3 — `dsp_qty` is set to `SUM(dci.dsp_qty)` over the referencing
  `delivery_challan_items` rows, guarded by `EXISTS` (rows of the PO with no
  referencing DC item keep their stored `dsp_qty`);
* step 3.4 — `pending_qty = MAX(0, ord_qty - COALESCE(dsp_qty, 0))`, which in
  SQLite is `NULL` when `ord_qty` is `NULL`. -/
def syncPoItemStep (db : DB) (it : POItemRow) : POItemRow :=
  let st := calculate_entity_status it.ord_qty it.dsp_qty it.rcd_qty
  let srvMatches := db.srv_items.filter
    (fun si => si.po_number == it.po_number && si.po_item_no == it.po_item_no)
  let rcd' := some ((sqlSum (srvMatches.map (·.rcd_qty))).getD 0)
  let rej' := some ((sqlSum (srvMatches.map (·.rej_qty))).getD 0)
  let refs := db.delivery_challan_items.filter (fun c => c.po_item_id == it.id)
  let dsp' := if refs.isEmpty then it.dsp_qty else sqlSum (refs.map (·.dsp_qty))
  let pend' := match it.ord_qty with
    | none => none
    | some o => some (max 0 (o - dsp'.getD 0))
  { it with status := st, rcd_qty := rcd', rej_qty := rej', dsp_qty := dsp',
            pending_qty := pend' }

/-- `ReconciliationServiceV2.sync_po(db, po_number)`: no-op when the PO has no
items; otherwise updates every item row of the PO by `syncPoItemStep`, zeroes
the tracking columns of the PO's delivery lots (step 3.2), and recomputes the
PO-level status from the re-fetched `SUM`s of the updated items (steps 4–5). -/
def sync_po (db : DB) (po_number : String) : DB :=
  let items0 := db.purchase_order_items.filter (fun it => it.po_number == po_number)
  if items0.isEmpty then db else
    let items' := db.purchase_order_items.map
      (fun it => if it.po_number == po_number then syncPoItemStep db it else it)
    let lots' := db.purchase_order_deliveries.map
      (fun lot =>
        if db.purchase_order_items.any
            (fun it => it.po_number == po_number && it.id == lot.po_item_id)
        then { lot with dsp_qty := some 0, rcd_qty := some 0, rej_qty := some 0 }
        else lot)
    let matching := items'.filter (fun it => it.po_number == po_number)
    let po_status := calculate_entity_status
      (sqlSum (matching.map (·.ord_qty)))
      (sqlSum (matching.map (·.dsp_qty)))
      (sqlSum (matching.map (·.rcd_qty)))
    let pos' := db.purchase_orders.map
      (fun p => if p.po_number == po_number then { p with po_status := po_status } else p)
    { db with purchase_orders := pos', purchase_order_items := items',
              purchase_order_deliveries := lots' }

/-! ## Error taxonomy (`backend/core/exceptions.py`) as surfaced by the
modelled services -/

/-- The structured payload of the `BusinessRuleViolation` raised by the R-01
conditional insert in `create_dc` (`details` keys `item_id`, `attempted_qty`,
`invariant`). -/
structure R01Violation where
  item_id : String
  attempted_qty : Option ℚ
  invariant : String
deriving DecidableEq, Repr

/-- Domain errors raised on the modelled DC service paths. -/
inductive DCError where
  /-- `ConflictError` from `ValidationService.validate_dc_header` — the DC
  number already exists in the financial year (payload: number, FY label). -/
  | conflictHeaderDup (dc_number : String) (financial_year : String)
  /-- `ConflictError` from the GC-number duplicate check. -/
  | conflictGCDup (gc_number : String) (financial_year : String)
  /-- `ConflictError` "Cannot edit DC - already linked to invoice". -/
  | conflictLinkedInvoice (dc_number : String) (invoice_number : String)
  /-- `ValidationError` with its message. -/
  | validation (msg : String)
  /-- `ResourceNotFoundError` (resource kind, identifier). -/
  | notFound (resource : String) (ident : String)
  /-- `BusinessRuleViolation` from a quantity-capacity check (payload:
  `item_id`/item label, attempted quantity). -/
  | businessRule (item_id : String) (attempted_qty : Option ℚ) (invariant : String)
  /-- An unexpected lower-level error (`except Exception` branch), such as the
  `TypeError` from arithmetic on a `NULL` `ord_qty`. -/
  | internal (msg : String)
deriving DecidableEq, Repr

instance {ε α : Type} [DecidableEq ε] [DecidableEq α] : DecidableEq (Except ε α) := fun x y =>
  match x, y with
  | .ok a, .ok b =>
    if h : a = b then isTrue (h ▸ rfl) else isFalse (fun hc => h (Except.ok.inj hc))
  | .error a, .error b =>
    if h : a = b then isTrue (h ▸ rfl) else isFalse (fun hc => h (Except.error.inj hc))
  | .ok _, .error _ => isFalse (fun hc => Except.noConfusion hc)
  | .error _, .ok _ => isFalse (fun hc => Except.noConfusion hc)

/-! ## `backend/services/validation_service.py` -/

/-- `ValidationService.check_document_linked`: the invoice number of the
first `gst_invoices` row referencing the DC, if any. -/
def check_document_linked (db : DB) (dc_number : String) : Option String :=
  (db.gst_invoices.find? (fun i => i.dc_number == dc_number)).map (·.invoice_number)

/-- The FY-scoped duplicate query of `create_dc` (lines 67–74) and of
`ValidationService.check_duplicate_number` for document type `"DC"`:
a `delivery_challans` row with the same number whose `dc_date` lies in the
financial-year window derived from `d`. -/
def dcNumberFYDup (dcs : List DCRow) (number : String) (d : Date) : Bool :=
  dcs.any (fun c => c.dc_number == number && inFYWindow d c.dc_date)

/-- The GC-number duplicate query of `create_dc` / `update_dc`; `excluding`
is the `AND dc_number != ?` clause used only on the update path. -/
def gcNumberFYDup (dcs : List DCRow) (gc : String) (d : Date)
    (excluding : Option String) : Bool :=
  dcs.any (fun c => c.gc_number == gc && inFYWindow d c.dc_date &&
    (match excluding with
     | none => true
     | some ex => !(c.dc_number == ex)))

/-- `ValidationService.validate_dc_header`: required-field checks, then the
FY-scoped duplicate check (with no self-exclusion).  `dc_date = none` stands
for an empty date string; on success the parsed date is returned for reuse. -/
def validate_dc_header (db : DB) (dc_number : String) (dc_date : Option Date) :
    Except DCError Date :=
  if dc_number = "" then .error (.validation "DC number is required")
  else match dc_date with
  | none => .error (.validation "DC date is required")
  | some d =>
    if dcNumberFYDup db.delivery_challans dc_number d then
      .error (.conflictHeaderDup dc_number (fyLabel d))
    else .ok d

/-- A requested DC line as passed to the DC service: a PO-item reference and
the `to_qty`-coerced dispatch quantity (`none` = missing/unparseable). -/
structure DCItemReq where
  po_item_id : String
  dsp_qty : Option ℚ
deriving DecidableEq, Repr

/-- `COALESCE(SUM(dsp_qty), 0)` over the DC items of one DC for one PO item
(the `current_dc_contribution` subquery of `validate_dc_items`). -/
def sumDspForDC (dcis : List DCItemRow) (dcn pid : String) : ℚ :=
  ((dcis.filter (fun c => c.dc_number == dcn && c.po_item_id == pid)).filterMap
    (·.dsp_qty)).sum

/-- The per-item body of `ValidationService.validate_dc_items`: required
fields, positivity, then the global capacity check against
`ord_qty - physical_dispatched` (minus the excluded DC's own contribution
when `exclude_dc` is set).  A missing `purchase_order_items` row skips the
capacity check (`if recon_row:`); a `NULL` `ord_qty` makes the Python
subtraction raise `TypeError`, surfaced as `.internal`. -/
def validate_dc_items_go (db : DB) (exclude_dc : Option String) :
    List DCItemReq → Except DCError Unit
  | [] => .ok ()
  | item :: rest =>
    if item.po_item_id = "" then .error (.validation "PO item ID is required")
    else match item.dsp_qty with
    | none => .error (.validation "Dispatch quantity is required")
    | some q =>
      if q ≤ 0 then .error (.validation "Dispatch quantity must be positive")
      else match db.purchase_order_items.find? (fun poi => poi.id == item.po_item_id) with
      | none => validate_dc_items_go db exclude_dc rest
      | some poi =>
        match poi.ord_qty with
        | none => .error (.internal "unsupported operand type for -: NoneType and float")
        | some o =>
          let global_dispatched := sumDspFor db.delivery_challan_items item.po_item_id
          let dispatched := match exclude_dc with
            | none => global_dispatched
            | some ex => global_dispatched - sumDspForDC db.delivery_challan_items ex item.po_item_id
          let remaining := o - dispatched
          if remaining + 1/1000 < q then
            .error (.businessRule item.po_item_id (some q) "Over-dispatch (Physical Limit)")
          else validate_dc_items_go db exclude_dc rest

/-- `ValidationService.validate_dc_items(db, items, exclude_dc)`. -/
def validate_dc_items (db : DB) (items : List DCItemReq) (exclude_dc : Option String) :
    Except DCError Unit :=
  if items.isEmpty then .error (.validation "At least one item is required")
  else validate_dc_items_go db exclude_dc items

/-! ## `backend/services/dc.py` — `create_dc` -/

/-- The `WHERE EXISTS` condition of the R-01 conditional insert in
`create_dc` (lines 169–199): some `purchase_order_items` row with the
requested id satisfies `ord_qty - COALESCE(SUM(existing dispatches), 0)
>= requested - 0.001`, evaluated against the `delivery_challan_items` rows
present at write time.  A `NULL` `ord_qty` or `NULL` requested quantity makes
the SQL comparison `NULL`, i.e. the condition fails. -/
def r01InsertOk (poItems : List POItemRow) (dcis : List DCItemRow)
    (pid : String) (q : Option ℚ) : Bool :=
  poItems.any fun poi => poi.id == pid &&
    (match poi.ord_qty, q with
     | some o, some qv => decide (qv - 1/1000 ≤ o - sumDspFor dcis pid)
     | _, _ => false)

/-- The DC-item insertion loop of `create_dc` (lines 159–209): each request
`(po_item_id, dsp_qty)` is one conditional `INSERT ... SELECT ... WHERE
EXISTS`; a zero-row insert raises `BusinessRuleViolation` with details
`item_id`, `attempted_qty` and invariant tag `R-01 (Atomic Item-Level
Check)`.  The generated uuid id column is not consulted and is embedded as
`""`. -/
def create_dc_insert_items (poItems : List POItemRow) (dc_number : String)
    (reqs : List (String × Option ℚ)) (dcis : List DCItemRow) :
    Except R01Violation (List DCItemRow) :=
  match reqs with
  | [] => .ok dcis
  | (pid, q) :: rest =>
    if r01InsertOk poItems dcis pid q then
      create_dc_insert_items poItems dc_number rest
        (dcis ++ [⟨"", dc_number, pid, 1, q⟩])
    else .error ⟨pid, q, "R-01 (Atomic Item-Level Check)"⟩

/-- A DC header request (`DCCreate`); `dc_date = none` stands for an empty
date string, `now` supplies the `datetime.now()` fallback used when a date
is absent.  Columns that are stored but never consulted by any modelled
check (gc_date, consignee/transport metadata) are omitted. -/
structure DCCreateReq where
  dc_number : String
  dc_date : Option Date
  po_number : String
  gc_number : String
deriving DecidableEq, Repr

/-- `create_dc(dc, items, db)` (header checks, GC defaulting and check,
validation, header insert, R-01 item loop, then `reconcile_dc`). -/
def create_dc (db : DB) (now : Date) (dc : DCCreateReq) (items : List DCItemReq) :
    Except DCError DB :=
  let d0 := (dc.dc_date).getD now
  if dcNumberFYDup db.delivery_challans dc.dc_number d0 then
    .error (.conflictHeaderDup dc.dc_number (fyLabel d0))
  else
    let gc := if dc.gc_number = "" then dc.dc_number else dc.gc_number
    if gcNumberFYDup db.delivery_challans gc d0 none then
      .error (.conflictGCDup gc (fyLabel d0))
    else match validate_dc_header db dc.dc_number dc.dc_date with
    | .error e => .error e
    | .ok d =>
      match validate_dc_items db items none with
      | .error e => .error e
      | .ok _ =>
        let dcs' := db.delivery_challans ++ [⟨dc.dc_number, d, dc.po_number, gc⟩]
        match create_dc_insert_items db.purchase_order_items dc.dc_number
            (items.map fun it => (it.po_item_id, it.dsp_qty)) db.delivery_challan_items with
        | .error v => .error (.businessRule v.item_id v.attempted_qty v.invariant)
        | .ok dcis' =>
          let db1 := { db with delivery_challans := dcs', delivery_challan_items := dcis' }
          .ok (match dcs'.find? (fun c => c.dc_number == dc.dc_number) with
               | some c => sync_po db1 c.po_number
               | none => db1)

/-! ## `backend/services/dc.py` — `update_dc` -/

/-- The item re-insertion loop of `update_dc` (lines 354–448).  `dcisOther`
is the `delivery_challan_items` table after `DELETE ... WHERE dc_number = ?`,
so it holds only other DCs' rows; the `po_map` capacity state is the
`ord_qty` of the PO item and `COALESCE(SUM(dci.dsp_qty), 0)` over
`dcisOther`, incremented by each accepted quantity of the same batch (here
recomputed as the sum over `dcisOther ++ acc`).  A missing PO item raises
`ResourceNotFoundError`; `(ord_qty or 0)` coerces a `NULL` ordered quantity
to `0`; an excess over `available + 0.001` raises the R-01
`BusinessRuleViolation`.  A `None` quantity would make the Python comparison
raise `TypeError` (`.internal`); `validate_dc_items` has already excluded it. -/
def update_dc_insert_loop (poItems : List POItemRow) (dcisOther : List DCItemRow)
    (dc_number : String) (reqs : List DCItemReq) (acc : List DCItemRow) :
    Except DCError (List DCItemRow) :=
  match reqs with
  | [] => .ok acc
  | item :: rest =>
    match poItems.find? (fun poi => poi.id == item.po_item_id) with
    | none => .error (.notFound "PO Item" item.po_item_id)
    | some poi =>
      match item.dsp_qty with
      | none => .error (.internal "unsupported operand type for >: NoneType and float")
      | some q =>
        let available := poi.ord_qty.getD 0 - sumDspFor (dcisOther ++ acc) item.po_item_id
        if available + 1/1000 < q then
          .error (.businessRule item.po_item_id (some q) "R-01 (Atomic Item-Level Check)")
        else
          update_dc_insert_loop poItems dcisOther dc_number rest
            (acc ++ [⟨"", dc_number, item.po_item_id, 1, some q⟩])

/-- `update_dc(dc_number, dc, items, db)` in source order: the DC-2
linked-invoice check, the body/URL number match, `validate_dc_header` (whose
FY-duplicate query does **not** exclude the DC being updated),
`validate_dc_items` with `exclude_dc = dc_number`, GC defaulting and the
GC duplicate check (which **does** exclude the current DC), the header
update, delete-all-then-reinsert of the items through the capacity loop,
then `reconcile_dc`. -/
def update_dc (db : DB) (now : Date) (dc_number : String) (dc : DCCreateReq)
    (items : List DCItemReq) : Except DCError DB :=
  let _ := now
  match check_document_linked db dc_number with
  | some inv => .error (.conflictLinkedInvoice dc_number inv)
  | none =>
    if ¬(dc.dc_number = dc_number) then
      .error (.validation "DC number in body must match URL")
    else match validate_dc_header db dc.dc_number dc.dc_date with
    | .error e => .error e
    | .ok d =>
      match validate_dc_items db items (some dc_number) with
      | .error e => .error e
      | .ok _ =>
        let gc := if dc.gc_number = "" then dc_number else dc.gc_number
        if gcNumberFYDup db.delivery_challans gc d (some dc_number) then
          .error (.conflictGCDup gc (fyLabel d))
        else
          let dcs' := db.delivery_challans.map
            (fun c => if c.dc_number == dc_number then
              { c with dc_date := d, po_number := dc.po_number, gc_number := gc } else c)
          let dcisOther := db.delivery_challan_items.filter
            (fun c => !(c.dc_number == dc_number))
          match update_dc_insert_loop db.purchase_order_items dcisOther dc_number items [] with
          | .error e => .error e
          | .ok newItems =>
            let db1 := { db with delivery_challans := dcs',
                                 delivery_challan_items := dcisOther ++ newItems }
            .ok (match dcs'.find? (fun c => c.dc_number == dc_number) with
                 | some c => sync_po db1 c.po_number
                 | none => db1)

/-! ## `backend/services/invoice.py` — `create_invoice` -/

/-- Domain errors raised on the modelled `create_invoice` path. -/
inductive InvoiceError where
  /-- `ConflictError` — invoice number already used in the financial year. -/
  | conflictDupNumber (invoice_number : String) (financial_year : String)
  /-- `ValidationError` with its message. -/
  | validation (msg : String)
  /-- `ResourceNotFoundError` (resource kind, identifier). -/
  | notFound (resource : String) (ident : String)
  /-- `ConflictError` — the DC is already linked to an invoice (invariant
  DC-2, One DC → One Invoice); payload: the DC and the existing invoice
  number named in the message and `details`. -/
  | conflictAlreadyInvoiced (dc_number : String) (existing_invoice_number : String)
deriving DecidableEq, Repr

/-- `ValidationService.check_duplicate_number` for document type
`"Invoice"`: a `gst_invoices` row with the same number whose `invoice_date`
lies in the financial-year window derived from `d`. -/
def invoiceNumberFYDup (invs : List InvoiceRow) (number : String) (d : Date) : Bool :=
  invs.any (fun i => i.invoice_number == number && inFYWindow d i.invoice_date)

/-- An invoice creation request (`EnhancedInvoiceCreate` fields consulted by
the modelled checks); `invoice_date = none` stands for an empty date string. -/
structure InvoiceCreateReq where
  invoice_number : String
  invoice_date : Option Date
  dc_number : String
  buyer_name : String
deriving DecidableEq, Repr

/-- `create_invoice(invoice_data, db)` in source order: the FY-scoped
invoice-number duplicate check, `validate_invoice_header`, the DC existence
check, the DC-2 one-DC-one-Invoice guard (`check_dc_already_invoiced`), the
DC-items-nonempty check, then the insert.  Monetary/tax columns and the
`gst_invoice_items` rows are computed after these guards and are not
consulted by any modelled check; the insert is embedded as the key columns
of the new `gst_invoices` row. -/
def create_invoice (db : DB) (now : Date) (inv : InvoiceCreateReq) :
    Except InvoiceError DB :=
  let d0 := (inv.invoice_date).getD now
  if invoiceNumberFYDup db.gst_invoices inv.invoice_number d0 then
    .error (.conflictDupNumber inv.invoice_number (fyLabel d0))
  else if inv.invoice_number = "" then .error (.validation "Invoice number is required")
  else if inv.dc_number = "" then .error (.validation "DC number is required")
  else match inv.invoice_date with
  | none => .error (.validation "Invoice date is required")
  | some d =>
    if inv.buyer_name = "" then .error (.validation "Buyer name is required")
    else match db.delivery_challans.find? (fun c => c.dc_number == inv.dc_number) with
    | none => .error (.notFound "Delivery Challan" inv.dc_number)
    | some _ =>
      match check_document_linked db inv.dc_number with
      | some existing => .error (.conflictAlreadyInvoiced inv.dc_number existing)
      | none =>
        if (db.delivery_challan_items.filter (fun c => c.dc_number == inv.dc_number)).isEmpty then
          .error (.validation "DC has no items")
        else
          .ok { db with gst_invoices :=
            db.gst_invoices ++ [⟨inv.invoice_number, d, inv.dc_number⟩] }

/-! ## `backend/services/deviation_service.py` -/

/-- `DeviationService.check_qty_mismatch(db, srv_item_id, po_number,
po_item_no, srv_ord_qty)`: looks up the first matching PO item; absent →
`(False, unchanged)`; present with `abs(srv_ord_qty - float(ord_qty or 0)) >
0.001` → logs one `QTY_MISMATCH` deviation (expected = the PO item's ordered
quantity, actual = the SRV's stated one) and returns `True`; otherwise
`(False, unchanged)`.  It raises nothing: the result is a plain pair. -/
def check_qty_mismatch (db : DB) (srv_item_id po_number : String)
    (po_item_no : Int) (srv_ord_qty : ℚ) : Bool × DB :=
  match db.purchase_order_items.find?
      (fun poi => poi.po_number == po_number && poi.po_item_no == po_item_no) with
  | none => (false, db)
  | some poi =>
    let po_ord_qty := poi.ord_qty.getD 0
    if 1/1000 < |srv_ord_qty - po_ord_qty| then
      (true, { db with deviations := db.deviations ++
        [⟨"QTY_MISMATCH", "srv_item", srv_item_id, po_number, "ord_qty",
          some po_ord_qty, some srv_ord_qty⟩] })
    else (false, db)

/-! ## `backend/services/srv_ingestion_optimized.py` — stored accepted
quantity -/

/-- Line 176 of `ingest_srv_batch`: the `accepted_qty` bound into the
`srv_items` insert is `to_qty(item.get("accepted_qty"))` — the parser's
value coerced, with **no** received-minus-rejected defaulting.  The parser
(`srv_parser.py` lines 85–90) deliberately emits `None` when the source
document has no accepted-quantity column. -/
def ingest_srv_item_accepted (parsed_accepted_qty : Option ℚ) : Option ℚ :=
  to_qty parsed_accepted_qty

/-! ## Theorems for the claims -/

/-- C5: `calculate_entity_status` is a total pure function that returns
`"Delivered"` exactly when the ordered total is positive and the dispatched
total reaches it within the 0.001 tolerance (`None` read as zero), returns
`"Pending"` in every other case (in particular whenever the ordered total is
zero), and never depends on `total_received`. -/
theorem calculate_entity_status_spec (o d r r' : Option ℚ) :
    (calculate_entity_status o d r = "Delivered" ↔
      (0 < o.getD 0 ∧ o.getD 0 - 1/1000 ≤ d.getD 0)) ∧
    (calculate_entity_status o d r = "Delivered" ∨
      calculate_entity_status o d r = "Pending") ∧
    calculate_entity_status o d r = calculate_entity_status o d r' ∧
    calculate_entity_status (some 0) d r = "Pending" := by
  refine ⟨?_, ?_, rfl, ?_⟩
  · simp only [calculate_entity_status]
    split
    · rename_i h; exact ⟨fun _ => h, fun _ => rfl⟩
    · rename_i h; exact ⟨fun he => absurd he (by decide), fun hc => absurd hc h⟩
  · simp only [calculate_entity_status]
    split
    · exact .inl rfl
    · exact .inr rfl
  · simp [calculate_entity_status]

/-- C8: at the failing input — an SRV item parsed with received 10, rejected
2 and no accepted-quantity column in the source document (the parser emits
`accepted_qty = None`) — the ingested `accepted_qty` is `NULL`, not the
received − rejected default (8) that the spec (and the parser's own comment)
prescribe. -/
theorem ingest_srv_accepted_qty_not_defaulted :
    ingest_srv_item_accepted none = none ∧
      ingest_srv_item_accepted none ≠ some ((10 : ℚ) - 2) := by
  exact ⟨rfl, by simp [ingest_srv_item_accepted, to_qty]⟩

/-- C10: `get_financial_year` is total on every string and never raises:
whenever the given string parses as neither an ISO datetime nor a
`YYYY-MM-DD` date (the hypothesis `parse_date_model fromisoformat s =
none`), it silently returns the financial year of the current date —
exactly what it returns when called with no date at all — rather than
reporting an error, so FY-scoped duplicate checks fed a malformed date run
against today's financial year.  The statement is quantified over every
possible `fromisoformat`, hence holds for the runtime's actual
version-dependent standard-library parser. -/
theorem get_financial_year_total_fallback (fromisoformat : String → Option Date)
    (now : Date) (s : String)
    (h : parse_date_model fromisoformat s = none) :
    get_financial_year fromisoformat now (some s) = fyLabel now ∧
      get_financial_year fromisoformat now (some s) =
        get_financial_year fromisoformat now none := by
  simp [get_financial_year, h]

/-- Witness for C10 at the malformed date `"5-1-2"` (a one-digit year,
which `strptime("%Y-%m-%d")`'s four-digit `%Y` field rejects) with current
date 2024-05-01: the call returns FY `"2024-25"` instead of failing.  The
string contains no `"T"`, so the instantiation of the abstract ISO parser
is never consulted. -/
theorem get_financial_year_total_fallback_witness :
    parse_date_model (fun _ => none) "5-1-2" = none ∧
      get_financial_year (fun _ => none) ⟨2024, 5, 1⟩ (some "5-1-2") = "2024-25" := by
  have h : parse_date_model (fun _ => none) "5-1-2" = none := by decide
  refine ⟨h, ?_⟩
  rw [(get_financial_year_total_fallback (fun _ => none) ⟨2024, 5, 1⟩ "5-1-2" h).1]
  decide

/-- C9: `check_qty_mismatch` is total (it raises nothing); when the PO item
is found and the SRV line's stated ordered quantity differs from the PO
item's by more than 0.001, it returns `True` and appends exactly one
`QTY_MISMATCH` deviation record with expected = the PO item's ordered
quantity and actual = the SRV's stated one; within tolerance it returns
`False` and writes nothing — SRV ingestion is never aborted by it. -/
theorem check_qty_mismatch_spec (db : DB) (sid pon : String) (pino : Int)
    (q : ℚ) (poi : POItemRow)
    (hfind : db.purchase_order_items.find?
      (fun it => it.po_number == pon && it.po_item_no == pino) = some poi) :
    (1/1000 < |q - poi.ord_qty.getD 0| →
      check_qty_mismatch db sid pon pino q =
        (true, { db with deviations := db.deviations ++
          [⟨"QTY_MISMATCH", "srv_item", sid, pon, "ord_qty",
            some (poi.ord_qty.getD 0), some q⟩] })) ∧
    (¬(1/1000 < |q - poi.ord_qty.getD 0|) →
      check_qty_mismatch db sid pon pino q = (false, db)) := by
  simp only [check_qty_mismatch, hfind]
  constructor
  · intro h; rw [if_pos h]
  · intro h; rw [if_neg h]

/-- Witness for C9: PO item ordered 45, SRV line states 50 — the call
returns `True` and exactly one `QTY_MISMATCH` deviation with expected 45 and
actual 50 is recorded, without raising. -/
theorem check_qty_mismatch_witness :
    check_qty_mismatch
      ⟨[], [⟨"I1", "PO-1", 1, some 45, none, none, none, none, "Pending"⟩],
        [], [], [], [], [], []⟩ "S1_1" "PO-1" 1 50 =
      (true,
        ⟨[], [⟨"I1", "PO-1", 1, some 45, none, none, none, none, "Pending"⟩],
          [], [], [], [], [],
          [⟨"QTY_MISMATCH", "srv_item", "S1_1", "PO-1", "ord_qty",
            some 45, some 50⟩]⟩) := by
  have hfind :
      ([⟨"I1", "PO-1", 1, some 45, none, none, none, none, "Pending"⟩] :
        List POItemRow).find?
        (fun it => it.po_number == "PO-1" && it.po_item_no == 1) =
      some ⟨"I1", "PO-1", 1, some 45, none, none, none, none, "Pending"⟩ := rfl
  have h : (1 : ℚ)/1000 < |50 - (some (45 : ℚ)).getD 0| := by norm_num
  exact (check_qty_mismatch_spec
    ⟨[], [⟨"I1", "PO-1", 1, some 45, none, none, none, none, "Pending"⟩],
      [], [], [], [], [], []⟩ "S1_1" "PO-1" 1 50
    ⟨"I1", "PO-1", 1, some 45, none, none, none, none, "Pending"⟩ hfind).1 h

/-- `sync_po` preserves the number of `purchase_order_items` rows. -/
theorem sync_po_items_length (db : DB) (po : String) :
    (sync_po db po).purchase_order_items.length = db.purchase_order_items.length := by
  simp only [sync_po]
  split
  · rfl
  · simp

/-- When the PO has at least one item row, `sync_po` maps `syncPoItemStep`
over the PO's item rows and leaves other POs' rows unchanged. -/
theorem sync_po_items_eq (db : DB) (po : String)
    (hne : (db.purchase_order_items.filter (fun it => it.po_number == po)).isEmpty = false) :
    (sync_po db po).purchase_order_items =
      db.purchase_order_items.map
        (fun it => if it.po_number == po then syncPoItemStep db it else it) := by
  simp only [sync_po]
  rw [hne]
  rfl

/-- The row at position `i`, when it belongs to the synced PO, comes out of
`sync_po` as `syncPoItemStep` of the original row. -/
theorem sync_po_get_eq (db : DB) (po : String) (i : Nat)
    (hi : i < db.purchase_order_items.length)
    (hj : i < (sync_po db po).purchase_order_items.length)
    (hp : (db.purchase_order_items.get ⟨i, hi⟩).po_number = po) :
    (sync_po db po).purchase_order_items.get ⟨i, hj⟩ =
      syncPoItemStep db (db.purchase_order_items.get ⟨i, hi⟩) := by
  have hp2 : db.purchase_order_items[i].po_number = po := by
    simpa [List.get_eq_getElem] using hp
  have hmem : db.purchase_order_items.get ⟨i, hi⟩ ∈
      db.purchase_order_items.filter (fun it => it.po_number == po) :=
    List.mem_filter.mpr ⟨List.get_mem _ _ _, by simp [List.get_eq_getElem, hp2]⟩
  have hne : (db.purchase_order_items.filter (fun it => it.po_number == po)).isEmpty = false := by
    cases hE : (db.purchase_order_items.filter (fun it => it.po_number == po)).isEmpty
    · rfl
    · rw [List.isEmpty_iff] at hE
      rw [hE] at hmem
      exact absurd hmem (List.not_mem_nil _)
  have he := sync_po_items_eq db po hne
  rw [List.get_eq_getElem, List.get_eq_getElem]
  simp only [he, List.getElem_map]
  simp [hp2]

/-- C1 (amended): after `sync_po` returns for a PO with at least one item,
every item row of that PO has status equal to `calculate_entity_status`
evaluated on the quantity values stored in that row **when `sync_po`
started** (the step-1 fetch) — the statuses are written before the
`rcd_qty`/`dsp_qty` recomputations, not after them, so they agree with the
completion-time quantities only when those were already in sync at entry. -/
theorem sync_po_status_from_prefetch (db : DB) (po : String) (i : Nat)
    (hi : i < db.purchase_order_items.length)
    (hj : i < (sync_po db po).purchase_order_items.length)
    (hp : (db.purchase_order_items.get ⟨i, hi⟩).po_number = po) :
    ((sync_po db po).purchase_order_items.get ⟨i, hj⟩).status =
      calculate_entity_status
        (db.purchase_order_items.get ⟨i, hi⟩).ord_qty
        (db.purchase_order_items.get ⟨i, hi⟩).dsp_qty
        (db.purchase_order_items.get ⟨i, hi⟩).rcd_qty := by
  rw [sync_po_get_eq db po i hi hj hp]
  rfl

/-- Witness for C1 (amended): a PO item stored as ordered 5 / dispatched 5
leaves `sync_po` with status `"Delivered"`, computed from those entry-time
values. -/
theorem sync_po_status_from_prefetch_witness :
    (((sync_po ⟨[], [⟨"I1", "P", 1, some 5, some 5, none, none, none, "X"⟩],
        [], [], [], [], [], []⟩ "P").purchase_order_items.head?).map
      (fun it => it.status)) = some "Delivered" := by
  have hi : 0 < ([⟨"I1", "P", 1, some 5, some 5, none, none, none, "X"⟩] :
      List POItemRow).length := by norm_num
  have hj : 0 < (sync_po ⟨[], [⟨"I1", "P", 1, some 5, some 5, none, none, none, "X"⟩],
      [], [], [], [], [], []⟩ "P").purchase_order_items.length := by
    rw [sync_po_items_length]; norm_num
  have h := sync_po_status_from_prefetch
    ⟨[], [⟨"I1", "P", 1, some 5, some 5, none, none, none, "X"⟩],
      [], [], [], [], [], []⟩ "P" 0 hi hj rfl
  have hd : calculate_entity_status (some 5) (some 5) none = "Delivered" := by
    norm_num [calculate_entity_status]
  rw [List.head?_eq_getElem?, List.getElem?_eq_getElem hj]
  simpa [List.get_eq_getElem, hd] using h

/-- Counterexample to C1 as stated: a PO item stored with stale
`dsp_qty = 0` but a DC item dispatching 10 of 10 leaves `sync_po` with
status `"Pending"`, while `calculate_entity_status` on the quantities stored
at the moment `sync_po` completes (`dsp_qty = 10`) gives `"Delivered"`. -/
theorem sync_po_status_recompute_counterexample :
    ((sync_po ⟨[⟨"P", "Pending"⟩],
        [⟨"I1", "P", 1, some 10, some 0, none, none, none, "Pending"⟩],
        [], [], [⟨"d1", "DC1", "I1", 1, some 10⟩], [], [], []⟩ "P").purchase_order_items.map
      (fun it => (it.status, calculate_entity_status it.ord_qty it.dsp_qty it.rcd_qty)))
      = [("Pending", "Delivered")] ∧ "Pending" ≠ "Delivered" := by
  constructor
  · norm_num [sync_po, syncPoItemStep, sqlSum, calculate_entity_status,
      List.filterMap_cons, List.filterMap_nil, List.sum_cons, List.sum_nil]
    intro h
    rw [if_neg (Option.some_ne_none _)] at h
    norm_num at h
  · decide

/-- C3: for every item row of the synced PO, `sync_po` leaves `dsp_qty`
untouched when no `delivery_challan_items` row references the item, sets it
to the SQL `SUM` of the referencing DC items' dispatch quantities when at
least one does, and in both cases then sets
`pending_qty = max(0, ord_qty - dsp_qty)` from the freshly written
`dsp_qty` (stated for rows whose `ord_qty` is non-`NULL`; a `NULL`
`ord_qty` propagates to a `NULL` `pending_qty` in SQLite). -/
theorem sync_po_dsp_frame (db : DB) (po : String) (i : Nat)
    (hi : i < db.purchase_order_items.length)
    (hj : i < (sync_po db po).purchase_order_items.length)
    (hp : (db.purchase_order_items.get ⟨i, hi⟩).po_number = po) :
    ((db.delivery_challan_items.filter
        (fun c => c.po_item_id == (db.purchase_order_items.get ⟨i, hi⟩).id)).isEmpty = true →
      ((sync_po db po).purchase_order_items.get ⟨i, hj⟩).dsp_qty =
        (db.purchase_order_items.get ⟨i, hi⟩).dsp_qty) ∧
    ((db.delivery_challan_items.filter
        (fun c => c.po_item_id == (db.purchase_order_items.get ⟨i, hi⟩).id)).isEmpty = false →
      ((sync_po db po).purchase_order_items.get ⟨i, hj⟩).dsp_qty =
        sqlSum ((db.delivery_challan_items.filter
          (fun c => c.po_item_id == (db.purchase_order_items.get ⟨i, hi⟩).id)).map
            (fun c => c.dsp_qty))) ∧
    (∀ o : ℚ, (db.purchase_order_items.get ⟨i, hi⟩).ord_qty = some o →
      ((sync_po db po).purchase_order_items.get ⟨i, hj⟩).pending_qty =
        some (max 0 (o -
          (((sync_po db po).purchase_order_items.get ⟨i, hj⟩).dsp_qty).getD 0))) := by
  have hpost := sync_po_get_eq db po i hi hj hp
  refine ⟨?_, ?_, ?_⟩
  · intro hE
    rw [hpost]
    simp only [syncPoItemStep]
    rw [hE]
    simp
  · intro hE
    rw [hpost]
    simp only [syncPoItemStep]
    rw [hE]
    simp
  · intro o ho
    rw [hpost]
    simp only [syncPoItemStep]
    rw [ho]

/-- Witness for C3: an item ordered 10 with a stale manual `dsp_qty = 99`
and one referencing DC item of 7 comes out of `sync_po` with
`dsp_qty = 7` (the recomputed sum) and `pending_qty = max(0, 10 - 7) = 3`. -/
theorem sync_po_dsp_frame_witness :
    (((sync_po ⟨[], [⟨"I1", "P", 1, some 10, some 99, none, none, none, "S"⟩],
        [], [], [⟨"d1", "DC1", "I1", 1, some 7⟩], [], [], []⟩ "P").purchase_order_items.head?).map
      (fun it => (it.dsp_qty, it.pending_qty))) = some (some 7, some 3) := by
  have hi : 0 < ([⟨"I1", "P", 1, some 10, some 99, none, none, none, "S"⟩] :
      List POItemRow).length := by norm_num
  have hj : 0 < (sync_po ⟨[], [⟨"I1", "P", 1, some 10, some 99, none, none, none, "S"⟩],
      [], [], [⟨"d1", "DC1", "I1", 1, some 7⟩], [], [], []⟩ "P").purchase_order_items.length := by
    rw [sync_po_items_length]; norm_num
  have h := sync_po_dsp_frame
    ⟨[], [⟨"I1", "P", 1, some 10, some 99, none, none, none, "S"⟩],
      [], [], [⟨"d1", "DC1", "I1", 1, some 7⟩], [], [], []⟩ "P" 0 hi hj rfl
  have hE : (([⟨"d1", "DC1", "I1", 1, some 7⟩] : List DCItemRow).filter
      (fun c => c.po_item_id ==
        (([⟨"I1", "P", 1, some 10, some 99, none, none, none, "S"⟩] :
          List POItemRow).get ⟨0, hi⟩).id)).isEmpty = false := rfl
  have hdsp := h.2.1 hE
  have hsum : sqlSum ((([⟨"d1", "DC1", "I1", 1, some 7⟩] : List DCItemRow).filter
      (fun c => c.po_item_id ==
        (([⟨"I1", "P", 1, some 10, some 99, none, none, none, "S"⟩] :
          List POItemRow).get ⟨0, hi⟩).id)).map (fun c => c.dsp_qty)) = some 7 := by
    norm_num [sqlSum, List.filterMap_cons, List.filterMap_nil, List.sum_cons, List.sum_nil]
  rw [hsum] at hdsp
  have hpend := h.2.2 10 rfl
  rw [hdsp] at hpend
  have h3 : (0 : ℚ) ⊔ (10 - (some (7:ℚ)).getD 0) = 3 := by norm_num
  rw [List.head?_eq_getElem?, List.getElem?_eq_getElem hj]
  simp only [Option.map_some']
  simp only [List.get_eq_getElem] at hdsp hpend
  rw [h3] at hpend
  simp [hdsp, hpend]

/-- Appending one DC item row adds its quantity (0 when `NULL`) to the
dispatched total of its PO item and leaves other PO items' totals alone. -/
theorem sumDspFor_append (l : List DCItemRow) (it : DCItemRow) (pid : String) :
    sumDspFor (l ++ [it]) pid =
      sumDspFor l pid + (if it.po_item_id = pid then it.dsp_qty.getD 0 else 0) := by
  unfold sumDspFor
  by_cases h : it.po_item_id = pid
  · cases hd : it.dsp_qty <;>
      simp [h, hd, List.filter_append, List.filterMap_append]
  · simp [h, List.filter_append]

/-- When the R-01 `WHERE EXISTS` condition holds, some PO item row with the
requested id has a non-`NULL` `ord_qty`, the requested quantity is
non-`NULL`, and `requested - 0.001 <= ord_qty - already_dispatched`. -/
theorem r01InsertOk_spec (poItems : List POItemRow) (dcis : List DCItemRow)
    (pid : String) (q : Option ℚ)
    (h : r01InsertOk poItems dcis pid q = true) :
    ∃ poi ∈ poItems, poi.id = pid ∧ ∃ o qv, poi.ord_qty = some o ∧ q = some qv ∧
      qv - 1/1000 ≤ o - sumDspFor dcis pid := by
  unfold r01InsertOk at h
  rw [List.any_eq_true] at h
  obtain ⟨poi, hmem, hb⟩ := h
  rw [Bool.and_eq_true] at hb
  obtain ⟨hid, hcond⟩ := hb
  have hid2 : poi.id = pid := by simpa using hid
  cases ho : poi.ord_qty with
  | none => cases hq : q <;> rw [ho, hq] at hcond <;> simp at hcond
  | some o =>
    cases hq : q with
    | none => rw [ho, hq] at hcond; simp at hcond
    | some qv =>
      rw [ho, hq] at hcond
      simp only [decide_eq_true_eq] at hcond
      exact ⟨poi, hmem, hid2, o, qv, ho, rfl, hcond⟩

/-- C2: in `create_dc`, every DC item row is written by one conditional
insert guarded by the R-01 capacity condition evaluated at write time.  When
the loop returns successfully, each PO item's stored dispatch total is
either untouched or bounded by `ord_qty + 0.001`; when a conditional insert
affects zero rows the loop raises a business-rule violation that names the
item, the attempted quantity, and the invariant tag
`R-01 (Atomic Item-Level Check)` — and carries no new state, since the
caller aborts the transaction. -/
theorem create_dc_r01_guard (poItems : List POItemRow) (dcn : String)
    (reqs : List (String × Option ℚ)) (pre : List DCItemRow) :
    (∀ post, create_dc_insert_items poItems dcn reqs pre = .ok post →
      ∀ pid, sumDspFor post pid = sumDspFor pre pid ∨
        ∃ poi ∈ poItems, poi.id = pid ∧ ∃ o, poi.ord_qty = some o ∧
          sumDspFor post pid ≤ o + 1/1000) ∧
    (∀ e, create_dc_insert_items poItems dcn reqs pre = .error e →
      e.invariant = "R-01 (Atomic Item-Level Check)" ∧
        (e.item_id, e.attempted_qty) ∈ reqs) := by
  induction reqs generalizing pre with
  | nil =>
    constructor
    · intro post hok pid
      simp only [create_dc_insert_items] at hok
      injection hok with h
      subst h
      exact .inl rfl
    · intro e he
      simp only [create_dc_insert_items] at he
      exact absurd he (by simp)
  | cons head rest ih =>
    obtain ⟨pid, q⟩ := head
    constructor
    · intro post hok pid'
      simp only [create_dc_insert_items] at hok
      by_cases hg : r01InsertOk poItems pre pid q
      · rw [if_pos hg] at hok
        have hrec := (ih (pre ++ [⟨"", dcn, pid, 1, q⟩])).1 post hok pid'
        by_cases hpp : pid = pid'
        · subst hpp
          obtain ⟨poi, hmem, hpoiid, o, qv, ho, hq, hle⟩ :=
            r01InsertOk_spec poItems pre pid q hg
          have hsum : sumDspFor (pre ++ [⟨"", dcn, pid, 1, q⟩]) pid =
              sumDspFor pre pid + qv := by
            rw [sumDspFor_append]
            simp [hq]
          rcases hrec with heq | hex
          · right
            refine ⟨poi, hmem, hpoiid, o, ho, ?_⟩
            rw [heq, hsum]
            linarith
          · right
            exact hex
        · have hsum : sumDspFor (pre ++ [⟨"", dcn, pid, 1, q⟩]) pid' =
              sumDspFor pre pid' := by
            rw [sumDspFor_append]
            simp [hpp]
          rcases hrec with heq | hex
          · left
            rw [heq, hsum]
          · right
            exact hex
      · rw [if_neg hg] at hok
        exact absurd hok (by simp)
    · intro e he
      simp only [create_dc_insert_items] at he
      by_cases hg : r01InsertOk poItems pre pid q
      · rw [if_pos hg] at he
        have hrec := (ih (pre ++ [⟨"", dcn, pid, 1, q⟩])).2 e he
        exact ⟨hrec.1, List.mem_cons_of_mem _ hrec.2⟩
      · rw [if_neg hg] at he
        injection he with h
        subst h
        exact ⟨rfl, List.mem_cons_self _ _⟩

/-- Witness for C2: dispatching 6 of 10 against item `"I1"` succeeds and the
resulting stored total satisfies the R-01 bound. -/
theorem create_dc_r01_guard_witness :
    create_dc_insert_items
      [⟨"I1", "P", 1, some 10, none, none, none, none, "Pending"⟩] "DC1"
      [("I1", some 6)] [] = .ok [⟨"", "DC1", "I1", 1, some 6⟩] ∧
    (sumDspFor [⟨"", "DC1", "I1", 1, some 6⟩] "I1" = sumDspFor [] "I1" ∨
      ∃ poi ∈ [(⟨"I1", "P", 1, some 10, none, none, none, none, "Pending"⟩ : POItemRow)],
        poi.id = "I1" ∧ ∃ o, poi.ord_qty = some o ∧
          sumDspFor [⟨"", "DC1", "I1", 1, some 6⟩] "I1" ≤ o + 1/1000) := by
  have hok : create_dc_insert_items
      [⟨"I1", "P", 1, some 10, none, none, none, none, "Pending"⟩] "DC1"
      [("I1", some 6)] [] = .ok [⟨"", "DC1", "I1", 1, some 6⟩] := by
    norm_num [create_dc_insert_items, r01InsertOk, sumDspFor]
  exact ⟨hok, (create_dc_r01_guard
    [⟨"I1", "P", 1, some 10, none, none, none, none, "Pending"⟩] "DC1"
    [("I1", some 6)] []).1 [⟨"", "DC1", "I1", 1, some 6⟩] hok "I1"⟩

/-- C4 (code bug): re-saving DC `"DC1"` with its existing header, date and
single unchanged item fails immediately — `validate_dc_header`'s FY-scoped
duplicate query does not exclude the DC being updated, finds the DC itself,
and raises `ConflictError` "already exists in FY 2024-25" before any
capacity check runs.  (The GC-number check a few lines later does exclude
the current DC, showing the omission is a slip.) -/
theorem update_dc_resave_header_conflict :
    update_dc
      ⟨[⟨"P", "Pending"⟩],
        [⟨"I1", "P", 1, some 10, some 5, none, none, none, "Pending"⟩],
        [],
        [⟨"DC1", ⟨2024, 5, 1⟩, "P", "DC1"⟩],
        [⟨"x", "DC1", "I1", 1, some 5⟩],
        [], [], []⟩
      ⟨2024, 6, 1⟩ "DC1" ⟨"DC1", some ⟨2024, 5, 1⟩, "P", "DC1"⟩
      [⟨"I1", some 5⟩]
      = .error (.conflictHeaderDup "DC1" "2024-25") := by
  decide

/-- Counterexample to C6 as stated: a new DC dated 1998-05-01 conflicts
with a same-numbered DC dated 1999-05-01, although the two dates lie in
adjacent financial years — the `"20" + last-two-digits` year-end
construction turns FY 1998-99's upper bound into 2099-03-31. -/
theorem create_dc_fy_uniqueness_counterexample :
    create_dc ⟨[], [], [], [⟨"D1", ⟨1999, 5, 1⟩, "P", "G"⟩], [], [], [], []⟩
      ⟨2024, 1, 1⟩ ⟨"D1", some ⟨1998, 5, 1⟩, "P", "G2"⟩ []
      = .error (.conflictHeaderDup "D1" "1998-99") ∧
    fyStartYear ⟨1999, 5, 1⟩ ≠ fyStartYear ⟨1998, 5, 1⟩ := by
  constructor
  · decide
  · decide

/-- For FY start years `Y` with `Y + 1` in 2000–2099 (where the code's
`"20" + str(Y+1)[2:]` arithmetic is correct), a valid stored date lies in
the duplicate-check window derived from `d` exactly when it belongs to the
same April-start financial year as `d`. -/
theorem inFYWindow_iff_same_fy (Y : Nat) (hy1 : 1999 ≤ Y) (hy2 : Y ≤ 2098)
    (d x : Date) (hd : fyStartYear d = Y) (hx : validDate x) :
    inFYWindow d x = true ↔ fyStartYear x = Y := by
  obtain ⟨hm1, hm2, hdd1, hdd2, hyx⟩ := hx
  unfold inFYWindow fyEndYear
  rw [hd]
  unfold dateLe fyStartYear
  simp only [Bool.and_eq_true, decide_eq_true_eq]
  by_cases hxm : 4 ≤ x.month
  · rw [if_pos hxm]
    omega
  · rw [if_neg hxm]
    omega

/-- `validate_dc_items` raises only validation, internal, or business-rule
errors — never the FY-duplicate `ConflictError` of the header check. -/
theorem validate_dc_items_go_error_shape (db : DB) (ex : Option String)
    (items : List DCItemReq) (e : DCError)
    (he : validate_dc_items_go db ex items = .error e) :
    ∀ n fy, ¬(e = DCError.conflictHeaderDup n fy) := by
  induction items with
  | nil => simp [validate_dc_items_go] at he
  | cons it rest ih =>
    rw [validate_dc_items_go] at he
    split at he
    · injection he with h
      subst h
      intro n fy hc
      cases hc
    · split at he
      · injection he with h
        subst h
        intro n fy hc
        cases hc
      · split at he
        · injection he with h
          subst h
          intro n fy hc
          cases hc
        · split at he
          · exact ih he
          · split at he
            · injection he with h
              subst h
              intro n fy hc
              cases hc
            · split at he
              all_goals
                simp only [] at he
                split at he
                · injection he with h
                  subst h
                  intro n fy hc
                  cases hc
                · exact ih he

/-- C6 (amended): for DC dates whose financial-year start year lies between
1999 and 2098, `create_dc` raises the FY-duplicate `ConflictError` exactly
when another stored DC has the same number and a date in the same
April-start financial year `[Y-04-01, (Y+1)-03-31]`; outside that year
range the code's two-digit year-end arithmetic gives a wrong window (see
the counterexample at 1998 vs 1999). -/
theorem create_dc_fy_uniqueness (db : DB) (now : Date) (dc : DCCreateReq)
    (items : List DCItemReq) (d : Date)
    (hd : dc.dc_date = some d)
    (hy1 : 1999 ≤ fyStartYear d) (hy2 : fyStartYear d ≤ 2098)
    (hall : ∀ c ∈ db.delivery_challans, validDate c.dc_date) :
    (∃ fy, create_dc db now dc items = .error (.conflictHeaderDup dc.dc_number fy)) ↔
      ∃ c ∈ db.delivery_challans, c.dc_number = dc.dc_number ∧
        fyStartYear c.dc_date = fyStartYear d := by
  have hdup_iff : dcNumberFYDup db.delivery_challans dc.dc_number d = true ↔
      (∃ c ∈ db.delivery_challans, c.dc_number = dc.dc_number ∧
        fyStartYear c.dc_date = fyStartYear d) := by
    unfold dcNumberFYDup
    rw [List.any_eq_true]
    constructor
    · rintro ⟨c, hmem, hb⟩
      rw [Bool.and_eq_true] at hb
      refine ⟨c, hmem, by simpa using hb.1, ?_⟩
      exact (inFYWindow_iff_same_fy (fyStartYear d) hy1 hy2 d c.dc_date rfl
        (hall c hmem)).mp hb.2
    · rintro ⟨c, hmem, hnum, hfy⟩
      refine ⟨c, hmem, ?_⟩
      rw [Bool.and_eq_true]
      refine ⟨by simpa using hnum, ?_⟩
      exact (inFYWindow_iff_same_fy (fyStartYear d) hy1 hy2 d c.dc_date rfl
        (hall c hmem)).mpr hfy
  rw [← hdup_iff]
  unfold create_dc
  rw [hd]
  simp only [Option.getD_some]
  constructor
  · rintro ⟨fy, hres⟩
    by_cases hdup : dcNumberFYDup db.delivery_challans dc.dc_number d
    · exact hdup
    · exfalso
      rw [Bool.not_eq_true] at hdup
      rw [hdup] at hres
      simp only [Bool.false_eq_true, if_false] at hres
      revert hres
      generalize (if dc.gc_number = "" then dc.dc_number else dc.gc_number) = gc
      intro hres
      split at hres
      · injection hres with h2
        simp at h2
      · cases hv : validate_dc_header db dc.dc_number (some d) with
        | error eh =>
          rw [hv] at hres
          injection hres with h2
          unfold validate_dc_header at hv
          split at hv
          · injection hv with h3
            rw [← h3] at h2
            simp at h2
          · simp only [hdup, Bool.false_eq_true, if_false] at hv
            simp at hv
        | ok dres =>
          rw [hv] at hres
          cases hvi : validate_dc_items db items none with
          | error ei =>
            rw [hvi] at hres
            injection hres with h2
            have hshape : ∀ n fy2, ¬(ei = DCError.conflictHeaderDup n fy2) := by
              unfold validate_dc_items at hvi
              split at hvi
              · injection hvi with h3
                intro n fy2 hc
                rw [← h3] at hc
                simp at hc
              · exact validate_dc_items_go_error_shape db none items ei hvi
            exact hshape dc.dc_number fy h2
          | ok u =>
            rw [hvi] at hres
            cases hins : create_dc_insert_items db.purchase_order_items dc.dc_number
                (items.map fun it => (it.po_item_id, it.dsp_qty))
                db.delivery_challan_items with
            | error v =>
              rw [hins] at hres
              injection hres with h2
              simp at h2
            | ok dcis2 =>
              rw [hins] at hres
              simp at hres
  · intro hdup
    refine ⟨fyLabel d, ?_⟩
    rw [hdup]
    simp

/-- Witness for C6 (amended): dates 2024-05-01 and 2025-02-01 conflict for
the same DC number — applied through the theorem they are certified to lie
in the same financial year. -/
theorem create_dc_fy_uniqueness_witness :
    fyStartYear ⟨2024, 5, 1⟩ = fyStartYear ⟨2025, 2, 1⟩ := by
  obtain ⟨c, hmem, hnum, hfy⟩ := (create_dc_fy_uniqueness
    ⟨[], [], [], [⟨"D1", ⟨2024, 5, 1⟩, "P", "G"⟩], [], [], [], []⟩
    ⟨2024, 1, 1⟩ ⟨"D1", some ⟨2025, 2, 1⟩, "P", "G2"⟩ [] ⟨2025, 2, 1⟩ rfl
    (by decide) (by decide) (by decide)).mp ⟨"2024-25", by decide⟩
  rw [List.mem_singleton] at hmem
  subst hmem
  exact hfy

/-- C7: when a `gst_invoices` row already references the DC number (and the
request is otherwise well-formed: non-empty fields, a fresh invoice number
in its FY, an existing DC), `create_invoice` fails with the DC-2 conflict
error naming the DC and the existing invoice number, and — since the result
is an error — no invoice row is inserted. -/
theorem create_invoice_one_dc_one_invoice (db : DB) (now : Date)
    (inv : InvoiceCreateReq) (d : Date) (e : InvoiceRow)
    (hd : inv.invoice_date = some d)
    (hnum : ¬inv.invoice_number = "") (hdcn : ¬inv.dc_number = "")
    (hbuyer : ¬inv.buyer_name = "")
    (hnodup : invoiceNumberFYDup db.gst_invoices inv.invoice_number d = false)
    (hdcex : (db.delivery_challans.find? (fun c => c.dc_number == inv.dc_number)).isSome = true)
    (he : db.gst_invoices.find? (fun i => i.dc_number == inv.dc_number) = some e) :
    create_invoice db now inv =
      .error (.conflictAlreadyInvoiced inv.dc_number e.invoice_number) := by
  unfold create_invoice
  rw [hd]
  simp only [Option.getD_some]
  rw [hnodup]
  simp only [Bool.false_eq_true, if_false]
  rw [if_neg hnum, if_neg hdcn, if_neg hbuyer]
  obtain ⟨c, hc⟩ := Option.isSome_iff_exists.mp hdcex
  rw [hc]
  unfold check_document_linked
  rw [he]
  rfl

/-- Witness for C7: DC "DC-100" already invoiced as "INV-1"; invoicing it
again as "INV-2" fails with a conflict naming "INV-1". -/
theorem create_invoice_one_dc_one_invoice_witness :
    create_invoice
      ⟨[], [], [], [⟨"DC-100", ⟨2024, 5, 1⟩, "P", "G"⟩],
        [⟨"ci1", "DC-100", "I1", 1, some 5⟩], [],
        [⟨"INV-1", ⟨2024, 6, 1⟩, "DC-100"⟩], []⟩
      ⟨2024, 7, 1⟩ ⟨"INV-2", some ⟨2024, 7, 1⟩, "DC-100", "Buyer"⟩ =
      .error (.conflictAlreadyInvoiced "DC-100" "INV-1") := by
  exact create_invoice_one_dc_one_invoice
    ⟨[], [], [], [⟨"DC-100", ⟨2024, 5, 1⟩, "P", "G"⟩],
      [⟨"ci1", "DC-100", "I1", 1, some 5⟩], [],
      [⟨"INV-1", ⟨2024, 6, 1⟩, "DC-100"⟩], []⟩
    ⟨2024, 7, 1⟩ ⟨"INV-2", some ⟨2024, 7, 1⟩, "DC-100", "Buyer"⟩
    ⟨2024, 7, 1⟩ ⟨"INV-1", ⟨2024, 6, 1⟩, "DC-100"⟩
    rfl (by decide) (by decide) (by decide) (by decide) (by decide) rfl
